import Mathlib

/-!
Formal model of the TaskBoard backend (`server.js`).

The server is a thin CRUD layer: each HTTP handler validates its input,
performs at most one conditional existence check plus one store operation
against a keyed document store, and shapes a JSON envelope.  We embed each
handler as a pure Lean function:

* the keyed tasks table is a function `String → Option Task` (DynamoDB
  `GetCommand`/`PutCommand`/`UpdateCommand`/`DeleteCommand` act by primary key);
* a table scan result is passed to the read-only handlers as a `List Task`;
* request-body fields are `Option String` (absent vs present), with JavaScript
  truthiness (`undefined` and `""` are falsy) made explicit by `truthy`;
* `new Date().toISOString()` timestamps are modelled as a `Nat` clock value
  `now` supplied to the handler (ISO-8601 strings compare like the instants
  they denote);
* `Math.round` on the non-negative completion ratio is modelled over `ℚ` as
  floor of the value plus one half.
-/

namespace TaskBoard

/-- A task item as stored in the tasks table (`server.js`, `POST /tasks`). -/
structure Task where
  id : String
  boardId : String
  title : String
  description : String
  status : String
  createdAt : Nat
  updatedAt : Nat
  deriving DecidableEq, Repr

/-- JavaScript truthiness of an optional string: `undefined` (absent) and the
empty string are falsy, every other string is truthy. -/
def truthy (o : Option String) : Bool :=
  !(o.getD "" == "")

/-- JavaScript `o || d` for an optional string `o` and default `d`. -/
def jsOr (o : Option String) (d : String) : String :=
  if truthy o then o.getD "" else d

/-- The JSON envelope of a response: HTTP status code, the `success`
discriminator, and the optional `error` and `message` string fields. -/
structure Resp where
  status : Nat
  success : Bool
  error : Option String
  message : Option String
  deriving DecidableEq, Repr

/-- The tasks table, keyed by id. -/
abbrev TaskStore := String → Option Task

/-- The boards table, reduced to existence by id: board attributes are opaque
to this system, the task handlers only ever test whether a `GetCommand` on the
boards table returns an item. -/
abbrev BoardStore := String → Bool

/-- The status enum, in source order (`validStatuses` in `server.js`). -/
def validStatuses : List String := ["todo", "in-progress", "done"]

/-- Body of a `POST /tasks` request. -/
structure CreateBody where
  title : Option String
  description : Option String
  status : Option String
  boardId : Option String

/-- Body of a `PUT /tasks/:id` request. -/
structure UpdateBody where
  title : Option String
  description : Option String
  status : Option String

/-- Outcome of `POST /tasks` or `PUT /tasks/:id`: the response envelope, the
task included in the response body (if any), and the resulting tasks table. -/
structure WriteResult where
  resp : Resp
  task : Option Task
  store : TaskStore

/-- `POST /tasks`: require truthy `title`, then truthy `boardId`, then an
existing board, then a valid `status || 'todo'`; on success build the task
with `description || ''`, `createdAt = updatedAt = now`, write it by key
`newId` (overwrite semantics of `PutCommand`) and answer 201 with the task. -/
def postTasks (boards : BoardStore) (store : TaskStore) (body : CreateBody)
    (newId : String) (now : Nat) : WriteResult :=
  if !truthy body.title then
    ⟨⟨400, false, some "Title is required", none⟩, none, store⟩
  else if !truthy body.boardId then
    ⟨⟨400, false, some "Board ID is required", none⟩, none, store⟩
  else if !(boards (body.boardId.getD "")) then
    ⟨⟨404, false, some "Board not found", none⟩, none, store⟩
  else
    let taskStatus := jsOr body.status "todo"
    if !(validStatuses.contains taskStatus) then
      ⟨⟨400, false, some "Invalid status. Must be: todo, in-progress, or done", none⟩,
        none, store⟩
    else
      let task : Task :=
        ⟨newId, body.boardId.getD "", body.title.getD "",
          jsOr body.description "", taskStatus, now, now⟩
      ⟨⟨201, true, none, none⟩, some task,
        fun k => if k = newId then some task else store k⟩

/-- The item produced by the `UpdateExpression` of `PUT /tasks/:id` on a stored
task `t`: `updatedAt` is always set to `now`; `title` is set only when truthy;
`description` is set whenever present (`!== undefined`), including to the empty
string; `status` is set only when truthy. -/
def applyUpdate (t : Task) (body : UpdateBody) (now : Nat) : Task :=
  ⟨t.id, t.boardId,
    if truthy body.title then body.title.getD "" else t.title,
    match body.description with
    | some d => d
    | none => t.description,
    if truthy body.status then body.status.getD "" else t.status,
    t.createdAt, now⟩

/-- `PUT /tasks/:id`: 404 when no task has the id; 400 when a truthy `status`
is not in the enum; otherwise apply the partial patch, write the result back
under the same key, and answer 200 with the updated item (`ALL_NEW`). -/
def putTasksId (store : TaskStore) (id : String) (body : UpdateBody)
    (now : Nat) : WriteResult :=
  match store id with
  | none => ⟨⟨404, false, some "Task not found", none⟩, none, store⟩
  | some old =>
    if truthy body.status && !(validStatuses.contains (body.status.getD "")) then
      ⟨⟨400, false, some "Invalid status. Must be: todo, in-progress, or done", none⟩,
        none, store⟩
    else
      let updated := applyUpdate old body now
      ⟨⟨200, true, none, none⟩, some updated,
        fun k => if k = id then some updated else store k⟩

/-- Outcome of `DELETE /tasks/:id`: the response envelope and the resulting
tasks table. -/
structure DeleteResult where
  resp : Resp
  store : TaskStore

/-- `DELETE /tasks/:id`: 404 when no task has the id, otherwise delete the key
and answer 200 with a success message. -/
def deleteTasksId (store : TaskStore) (id : String) : DeleteResult :=
  match store id with
  | none => ⟨⟨404, false, some "Task not found", none⟩, store⟩
  | some _ =>
    ⟨⟨200, true, none, some "Task deleted successfully"⟩,
      fun k => if k = id then none else store k⟩

/-- Outcome of `GET /tasks/:id`. -/
structure GetTaskResult where
  resp : Resp
  task : Option Task

/-- `GET /tasks/:id`: point lookup, 404 when absent. -/
def getTaskById (store : TaskStore) (id : String) : GetTaskResult :=
  match store id with
  | none => ⟨⟨404, false, some "Task not found", none⟩, none⟩
  | some t => ⟨⟨200, true, none, none⟩, some t⟩

/-- Outcome of `GET /tasks`: envelope, flat list, the three status groups,
`total`, and the echoed `boardId` filter (`boardId || null`). -/
structure TasksResult where
  resp : Resp
  tasks : List Task
  todo : List Task
  inProgress : List Task
  done : List Task
  total : Nat
  boardId : Option String

/-- `GET /tasks` over a scan result `allTasks`: when the `boardId` query
parameter is truthy the scan is filtered by `boardId` equality; the flat list
is then partitioned by the three enum statuses, in scan order. -/
def getTasks (allTasks : List Task) (qBoardId : Option String) : TasksResult :=
  let tasks :=
    if truthy qBoardId then
      allTasks.filter (fun t => t.boardId == qBoardId.getD "")
    else allTasks
  ⟨⟨200, true, none, none⟩, tasks,
    tasks.filter (fun t => t.status == "todo"),
    tasks.filter (fun t => t.status == "in-progress"),
    tasks.filter (fun t => t.status == "done"),
    tasks.length,
    if truthy qBoardId then qBoardId else none⟩

/-- `Math.round` on a non-negative rational: nearest integer, halves rounded
up. -/
def jsRound (q : ℚ) : ℤ := ⌊q + 1 / 2⌋

/-- The comparator of `GET /dashboard`'s sort, as a stable `le` test:
`(a, b) => new Date(b.updatedAt) - new Date(a.updatedAt)` keeps `a` before `b`
exactly when `a.updatedAt ≥ b.updatedAt`. -/
def byUpdatedAtDesc (a b : Task) : Bool := b.updatedAt ≤ a.updatedAt

/-- Outcome of `GET /dashboard`. -/
structure DashboardResult where
  resp : Resp
  total : Nat
  todo : Nat
  inProgress : Nat
  done : Nat
  completionRate : ℤ
  recentTasks : List Task

/-- `GET /dashboard` over a scan result: per-status counts, the completion
rate `Math.round((done / total) * 100)` (0 when the table is empty), and the
first five tasks after a stable sort descending by `updatedAt`. -/
def getDashboard (tasks : List Task) : DashboardResult :=
  let doneCount := (tasks.filter (fun t => t.status == "done")).length
  ⟨⟨200, true, none, none⟩,
    tasks.length,
    (tasks.filter (fun t => t.status == "todo")).length,
    (tasks.filter (fun t => t.status == "in-progress")).length,
    doneCount,
    if tasks.length > 0 then
      jsRound (((doneCount : ℚ) / (tasks.length : ℚ)) * 100)
    else 0,
    (tasks.mergeSort byUpdatedAtDesc).take 5⟩

/-- Outcome of `GET /boards` over a scan of the boards table; board items are
opaque, so they are represented by their ids. -/
structure BoardsResult where
  resp : Resp
  boards : List String
  total : Nat

/-- `GET /boards`: return the scan unfiltered with a count. -/
def getBoards (allBoards : List String) : BoardsResult :=
  ⟨⟨200, true, none, none⟩, allBoards, allBoards.length⟩

/-- `GET /health`. -/
def healthResp : Resp := ⟨200, true, none, some "TaskBoard API is running!"⟩

/-- The catch block of `GET /tasks`. -/
def getTasksErrorResp : Resp := ⟨500, false, some "Error fetching tasks", none⟩

/-- The catch block of `GET /tasks/:id`. -/
def getTaskErrorResp : Resp := ⟨500, false, some "Error fetching task", none⟩

/-- The catch block of `POST /tasks`. -/
def postTasksErrorResp : Resp := ⟨500, false, some "Error creating task", none⟩

/-- The catch block of `PUT /tasks/:id`. -/
def putTasksErrorResp : Resp := ⟨500, false, some "Error updating task", none⟩

/-- The catch block of `DELETE /tasks/:id`. -/
def deleteTasksErrorResp : Resp := ⟨500, false, some "Error deleting task", none⟩

/-- The catch block of `GET /dashboard`. -/
def dashboardErrorResp : Resp := ⟨500, false, some "Error fetching dashboard stats", none⟩

/-- The catch block of `GET /boards`. -/
def boardsErrorResp : Resp := ⟨500, false, some "Error fetching boards", none⟩

/-- The `app.use('*')` unmatched-route handler. -/
def notFoundResp : Resp := ⟨404, false, some "Endpoint not found", none⟩

/-- The global error handler. -/
def globalErrorResp : Resp := ⟨500, false, some "Internal server error", none⟩

/-- The envelope invariant: `success` is true exactly on the success status
codes 200 and 201, and every failure carries an `error` string. -/
def envelopeOK (r : Resp) : Prop :=
  (r.success = true ↔ (r.status = 200 ∨ r.status = 201)) ∧
  (r.success = false → r.error.isSome = true)

/-- Sample task used by the concrete witnesses below. -/
def sampleTask : Task := ⟨"t1", "b1", "T", "old", "todo", 0, 0⟩

/-- Singleton tasks table holding `sampleTask` under key `"t1"`. -/
def sampleStore : TaskStore := fun k => if k = "t1" then some sampleTask else none

theorem jsOr_empty (o : Option String) : jsOr o "" = o.getD "" := by
  cases o with
  | none => rfl
  | some s => by_cases h : s = "" <;> simp [jsOr, truthy, h]

theorem jsOr_of_truthy {o : Option String} (h : truthy o = true) (d : String) :
    jsOr o d = o.getD "" := by
  simp [jsOr, h]

/-- C1: `POST /tasks` validates in order and short-circuits — a falsy `title`
yields the 400 "Title is required" answer; with a truthy title, a falsy
`boardId` yields the 400 "Board ID is required" answer; with both truthy, an
absent board yields the 404 "Board not found" answer; with an existing board,
an invalid defaulted status yields the 400 invalid-status answer — and in
every one of these error cases the tasks table is unchanged, so no item is
written. -/
theorem post_validation_order (boards : BoardStore) (store : TaskStore)
    (body : CreateBody) (newId : String) (now : Nat) :
    (truthy body.title = false →
      (postTasks boards store body newId now).resp
          = ⟨400, false, some "Title is required", none⟩ ∧
        (postTasks boards store body newId now).store = store) ∧
    (truthy body.title = true → truthy body.boardId = false →
      (postTasks boards store body newId now).resp
          = ⟨400, false, some "Board ID is required", none⟩ ∧
        (postTasks boards store body newId now).store = store) ∧
    (truthy body.title = true → truthy body.boardId = true →
      boards (body.boardId.getD "") = false →
      (postTasks boards store body newId now).resp
          = ⟨404, false, some "Board not found", none⟩ ∧
        (postTasks boards store body newId now).store = store) ∧
    (truthy body.title = true → truthy body.boardId = true →
      boards (body.boardId.getD "") = true →
      validStatuses.contains (jsOr body.status "todo") = false →
      (postTasks boards store body newId now).resp
          = ⟨400, false, some "Invalid status. Must be: todo, in-progress, or done", none⟩ ∧
        (postTasks boards store body newId now).store = store) := by
  refine ⟨fun h1 => ?_, fun h1 h2 => ?_, fun h1 h2 h3 => ?_, fun h1 h2 h3 h4 => ?_⟩
  · simp [postTasks, h1]
  · simp [postTasks, h1, h2]
  · simp [postTasks, h1, h2, h3]
  · have h4' : jsOr body.status "todo" ∉ validStatuses := by simpa using h4
    simp [postTasks, h1, h2, h3, h4']

/-- C1 witness: a concrete request with no title is rejected with 400 and the
empty tasks table is unchanged. -/
theorem post_validation_order_witness :
    (postTasks (fun _ => false) (fun _ => none) ⟨none, none, none, none⟩ "id1" 0).resp
        = ⟨400, false, some "Title is required", none⟩ ∧
      (postTasks (fun _ => false) (fun _ => none) ⟨none, none, none, none⟩ "id1" 0).store
        = (fun _ => none) :=
  (post_validation_order (fun _ => false) (fun _ => none) ⟨none, none, none, none⟩
    "id1" 0).1 (by decide)

/-- C4: on the success path of `POST /tasks` the created task's status is the
supplied status or `todo` when omitted, its description is the supplied
description or empty when omitted, its `createdAt` equals its `updatedAt`,
and the handler answers 201 with exactly the item written under the new key. -/
theorem post_create_success (boards : BoardStore) (store : TaskStore)
    (body : CreateBody) (newId : String) (now : Nat)
    (ht : truthy body.title = true) (hb : truthy body.boardId = true)
    (hbd : boards (body.boardId.getD "") = true)
    (hs : validStatuses.contains (jsOr body.status "todo") = true) :
    ∃ task,
      (postTasks boards store body newId now).resp = ⟨201, true, none, none⟩ ∧
      (postTasks boards store body newId now).task = some task ∧
      (postTasks boards store body newId now).store newId = some task ∧
      task.status = jsOr body.status "todo" ∧
      (body.status = none → task.status = "todo") ∧
      (truthy body.status = true → task.status = body.status.getD "") ∧
      task.description = body.description.getD "" ∧
      task.createdAt = now ∧ task.updatedAt = now ∧
      task.createdAt = task.updatedAt := by
  have hs' : jsOr body.status "todo" ∈ validStatuses := by simpa using hs
  refine ⟨⟨newId, body.boardId.getD "", body.title.getD "", jsOr body.description "",
    jsOr body.status "todo", now, now⟩, ?_, ?_, ?_, rfl, ?_, ?_,
    jsOr_empty body.description, rfl, rfl, rfl⟩
  · simp [postTasks, ht, hb, hbd, hs']
  · simp [postTasks, ht, hb, hbd, hs']
  · simp [postTasks, ht, hb, hbd, hs']
  · intro h
    simp [h, jsOr, truthy]
  · intro h
    exact jsOr_of_truthy h "todo"

/-- C4 witness: a concrete valid creation returns 201 and writes the item. -/
theorem post_create_success_witness :
    ∃ task,
      (postTasks (fun b => b = "b1") (fun _ => none)
          ⟨some "T", none, none, some "b1"⟩ "id1" 7).resp = ⟨201, true, none, none⟩ ∧
      (postTasks (fun b => b = "b1") (fun _ => none)
          ⟨some "T", none, none, some "b1"⟩ "id1" 7).task = some task ∧
      (postTasks (fun b => b = "b1") (fun _ => none)
          ⟨some "T", none, none, some "b1"⟩ "id1" 7).store "id1" = some task ∧
      task.status = jsOr none "todo" ∧
      ((none : Option String) = none → task.status = "todo") ∧
      (truthy (none : Option String) = true → task.status = Option.getD none "") ∧
      task.description = Option.getD (none : Option String) "" ∧
      task.createdAt = 7 ∧ task.updatedAt = 7 ∧
      task.createdAt = task.updatedAt :=
  post_create_success (fun b => b = "b1") (fun _ => none)
    ⟨some "T", none, none, some "b1"⟩ "id1" 7
    (by decide) (by decide) (by decide) (by decide)

/-- C10: a `POST /tasks` whose body carries `status` set explicitly to the
empty string behaves exactly like one with `status` omitted; with a valid
title and board the task is created with status `todo` and the handler
answers 201 rather than rejecting the empty string with a 400. -/
theorem post_empty_status_todo (boards : BoardStore) (store : TaskStore)
    (t d b : Option String) (newId : String) (now : Nat) :
    postTasks boards store ⟨t, d, some "", b⟩ newId now
        = postTasks boards store ⟨t, d, none, b⟩ newId now ∧
    (truthy t = true → truthy b = true → boards (b.getD "") = true →
      (postTasks boards store ⟨t, d, some "", b⟩ newId now).resp.status = 201 ∧
      ∃ task, (postTasks boards store ⟨t, d, some "", b⟩ newId now).task = some task ∧
        task.status = "todo") := by
  constructor
  · rfl
  · intro ht hb hbd
    have ht' : ¬(t.getD "" = "") := by simpa [truthy] using ht
    have hb' : ¬(b.getD "" = "") := by simpa [truthy] using hb
    simp [postTasks, ht', hb', hbd, jsOr, truthy, validStatuses]

/-- C10 witness: a concrete creation with an explicit empty status answers
201 with status `todo`. -/
theorem post_empty_status_todo_witness :
    (postTasks (fun b => b = "b1") (fun _ => none)
        ⟨some "T", none, some "", some "b1"⟩ "id1" 7).resp.status = 201 ∧
    ∃ task,
      (postTasks (fun b => b = "b1") (fun _ => none)
          ⟨some "T", none, some "", some "b1"⟩ "id1" 7).task = some task ∧
        task.status = "todo" :=
  (post_empty_status_todo (fun b => b = "b1") (fun _ => none)
    (some "T") none (some "b1") "id1" 7).2 (by decide) (by decide) (by decide)

/-- C2: a `PUT /tasks/:id` on an existing task whose body carries only
`description` answers 200 with the updated item; the stored item keeps its
`id`, `boardId`, `title`, `status` and `createdAt`, its description becomes
the supplied value (empty string clears, absent leaves unchanged), and its
`updatedAt` becomes the current clock, strictly later than before when the
clock has advanced. -/
theorem put_description_only (store : TaskStore) (id : String) (d : Option String)
    (now : Nat) (old : Task) (hold : store id = some old)
    (hnow : old.updatedAt < now) :
    (putTasksId store id ⟨none, d, none⟩ now).resp = ⟨200, true, none, none⟩ ∧
    (putTasksId store id ⟨none, d, none⟩ now).task
        = some (applyUpdate old ⟨none, d, none⟩ now) ∧
    (putTasksId store id ⟨none, d, none⟩ now).store id
        = some (applyUpdate old ⟨none, d, none⟩ now) ∧
    (applyUpdate old ⟨none, d, none⟩ now).id = old.id ∧
    (applyUpdate old ⟨none, d, none⟩ now).boardId = old.boardId ∧
    (applyUpdate old ⟨none, d, none⟩ now).title = old.title ∧
    (applyUpdate old ⟨none, d, none⟩ now).status = old.status ∧
    (applyUpdate old ⟨none, d, none⟩ now).createdAt = old.createdAt ∧
    (applyUpdate old ⟨none, d, none⟩ now).description = d.getD old.description ∧
    (applyUpdate old ⟨none, d, none⟩ now).updatedAt = now ∧
    old.updatedAt < (applyUpdate old ⟨none, d, none⟩ now).updatedAt := by
  refine ⟨?_, ?_, ?_, rfl, rfl, rfl, rfl, rfl, ?_, rfl, hnow⟩
  · simp [putTasksId, hold, truthy]
  · simp [putTasksId, hold, truthy]
  · simp [putTasksId, hold, truthy]
  · cases d <;> rfl

/-- C2 witness: a concrete description-only update of `sampleTask` at a later
clock answers 200. -/
theorem put_description_only_witness :
    (putTasksId sampleStore "t1" ⟨none, some "x", none⟩ 5).resp
      = ⟨200, true, none, none⟩ :=
  (put_description_only sampleStore "t1" (some "x") 5 sampleTask
    (by decide) (by decide)).1

/-- C9: a `PUT /tasks/:id` whose body sets `title` to the empty string behaves
exactly like one with `title` absent; on an existing task, when the status
check does not independently reject the request, the handler answers 200 and
the stored title is unchanged — unlike `description`, where an explicit empty
string clears the field. -/
theorem put_empty_title_ignored (store : TaskStore) (id : String)
    (d s : Option String) (now : Nat) :
    putTasksId store id ⟨some "", d, s⟩ now = putTasksId store id ⟨none, d, s⟩ now ∧
    (∀ old, store id = some old →
      (truthy s && !(validStatuses.contains (s.getD ""))) = false →
      (putTasksId store id ⟨some "", d, s⟩ now).resp.status = 200 ∧
      (putTasksId store id ⟨some "", d, s⟩ now).store id
          = some (applyUpdate old ⟨some "", d, s⟩ now) ∧
      (applyUpdate old ⟨some "", d, s⟩ now).title = old.title) := by
  constructor
  · rfl
  · intro old hold hs
    cases hts : truthy s with
    | false =>
      refine ⟨?_, ?_, rfl⟩ <;> simp [putTasksId, hold, hts]
    | true =>
      have hcs : validStatuses.contains (s.getD "") = true := by
        cases hcs : validStatuses.contains (s.getD "") with
        | true => rfl
        | false => rw [hts, hcs] at hs; cases hs
      have hmem : s.getD "" ∈ validStatuses := by simpa using hcs
      refine ⟨?_, ?_, rfl⟩ <;> simp [putTasksId, hold, hts, hmem]

/-- C9 witness: a concrete update carrying an empty title and a new
description answers 200 and leaves the stored title `"T"` unchanged. -/
theorem put_empty_title_ignored_witness :
    (putTasksId sampleStore "t1" ⟨some "", some "x", none⟩ 5).resp.status = 200 ∧
    (putTasksId sampleStore "t1" ⟨some "", some "x", none⟩ 5).store "t1"
        = some (applyUpdate sampleTask ⟨some "", some "x", none⟩ 5) ∧
    (applyUpdate sampleTask ⟨some "", some "x", none⟩ 5).title = sampleTask.title :=
  (put_empty_title_ignored sampleStore "t1" (some "x") none 5).2 sampleTask
    (by decide) (by decide)

/-- C6 as stated is falsified by an explicit empty-string status: the body
carries `status := ""`, a value outside the enum, yet the handler answers 200
and writes a refreshed item (the JavaScript truthiness test skips the enum
check for the empty string). -/
theorem put_invalid_status_counterexample :
    ("" ∈ validStatuses) = false ∧
    (putTasksId sampleStore "t1" ⟨none, none, some ""⟩ 5).resp.status = 200 ∧
    (putTasksId sampleStore "t1" ⟨none, none, some ""⟩ 5).store "t1"
        = some (applyUpdate sampleTask ⟨none, none, some ""⟩ 5) ∧
    applyUpdate sampleTask ⟨none, none, some ""⟩ 5 ≠ sampleTask := by
  decide

/-- C6 (amended): a `PUT /tasks/:id` for an id with no task answers 404 with
no write; on an existing task, a body carrying a non-empty `status` outside
the enum answers 400 with no write at all, not even of `updatedAt`. -/
theorem put_error_paths (store : TaskStore) (id : String) (body : UpdateBody)
    (now : Nat) :
    (store id = none →
      (putTasksId store id body now).resp = ⟨404, false, some "Task not found", none⟩ ∧
      (putTasksId store id body now).store = store) ∧
    (∀ old, store id = some old → truthy body.status = true →
      validStatuses.contains (body.status.getD "") = false →
      (putTasksId store id body now).resp
          = ⟨400, false, some "Invalid status. Must be: todo, in-progress, or done", none⟩ ∧
      (putTasksId store id body now).store = store) := by
  constructor
  · intro h
    simp [putTasksId, h]
  · intro old hold hs hv
    have hv' : body.status.getD "" ∉ validStatuses := by simpa using hv
    simp [putTasksId, hold, hs, hv']

/-- C6 witness: a concrete update of a missing id on the empty table answers
404 and leaves the table unchanged, and a concrete non-empty invalid status on
an existing task answers 400 with no write. -/
theorem put_error_paths_witness :
    ((putTasksId (fun _ => none) "t9" ⟨none, none, none⟩ 5).resp
        = ⟨404, false, some "Task not found", none⟩ ∧
      (putTasksId (fun _ => none) "t9" ⟨none, none, none⟩ 5).store = (fun _ => none)) ∧
    ((putTasksId sampleStore "t1" ⟨none, none, some "archived"⟩ 5).resp
        = ⟨400, false, some "Invalid status. Must be: todo, in-progress, or done", none⟩ ∧
      (putTasksId sampleStore "t1" ⟨none, none, some "archived"⟩ 5).store = sampleStore) :=
  ⟨(put_error_paths (fun _ => none) "t9" ⟨none, none, none⟩ 5).1 rfl,
    (put_error_paths sampleStore "t1" ⟨none, none, some "archived"⟩ 5).2 sampleTask
      (by decide) (by decide) (by decide)⟩

/-- C7: deleting an existing task answers 200 with the success message and
removes the task; an immediately repeated delete of the same id answers 404
and leaves the table unchanged. -/
theorem delete_twice (store : TaskStore) (id : String)
    (h : (store id).isSome = true) :
    (deleteTasksId store id).resp
        = ⟨200, true, none, some "Task deleted successfully"⟩ ∧
    (deleteTasksId store id).store id = none ∧
    (deleteTasksId (deleteTasksId store id).store id).resp
        = ⟨404, false, some "Task not found", none⟩ ∧
    (deleteTasksId (deleteTasksId store id).store id).store
        = (deleteTasksId store id).store := by
  obtain ⟨t, ht⟩ := Option.isSome_iff_exists.mp h
  have h1 : (deleteTasksId store id).store id = none := by
    simp [deleteTasksId, ht]
  refine ⟨by simp [deleteTasksId, ht], h1, ?_, ?_⟩ <;>
  · generalize hG : (deleteTasksId store id).store = s' at h1 ⊢
    simp [deleteTasksId, h1]

/-- C7 witness: deleting `"t1"` twice on the singleton table gives 200 then
404. -/
theorem delete_twice_witness :
    (deleteTasksId sampleStore "t1").resp
        = ⟨200, true, none, some "Task deleted successfully"⟩ ∧
    (deleteTasksId sampleStore "t1").store "t1" = none ∧
    (deleteTasksId (deleteTasksId sampleStore "t1").store "t1").resp
        = ⟨404, false, some "Task not found", none⟩ ∧
    (deleteTasksId (deleteTasksId sampleStore "t1").store "t1").store
        = (deleteTasksId sampleStore "t1").store :=
  delete_twice sampleStore "t1" (by decide)

theorem sum_status_filters_le (l : List Task) :
    (l.filter (fun t => t.status == "todo")).length
        + (l.filter (fun t => t.status == "in-progress")).length
        + (l.filter (fun t => t.status == "done")).length ≤ l.length := by
  induction l with
  | nil => simp
  | cons a l ih =>
    cases hp : (a.status == "todo") <;> cases hq : (a.status == "in-progress") <;>
      cases hr : (a.status == "done") <;>
      simp_all [List.filter_cons] <;> omega

/-- C3: in every `GET /tasks` response the three `tasksByStatus` groups are
exactly the tasks of the flat list with the matching enum status, in scan
order; a task with any other status is in none of the groups though it stays
in the flat list, so the three group sizes sum to at most `total`; and under a
truthy `boardId` query filter every task of the flat list has that board. -/
theorem get_tasks_grouping (allTasks : List Task) (q : Option String) :
    (getTasks allTasks q).todo
        = (getTasks allTasks q).tasks.filter (fun t => t.status == "todo") ∧
    (getTasks allTasks q).inProgress
        = (getTasks allTasks q).tasks.filter (fun t => t.status == "in-progress") ∧
    (getTasks allTasks q).done
        = (getTasks allTasks q).tasks.filter (fun t => t.status == "done") ∧
    (∀ t, t ∈ (getTasks allTasks q).todo ↔
        t ∈ (getTasks allTasks q).tasks ∧ t.status = "todo") ∧
    (∀ t, t ∈ (getTasks allTasks q).inProgress ↔
        t ∈ (getTasks allTasks q).tasks ∧ t.status = "in-progress") ∧
    (∀ t, t ∈ (getTasks allTasks q).done ↔
        t ∈ (getTasks allTasks q).tasks ∧ t.status = "done") ∧
    (getTasks allTasks q).todo.length + (getTasks allTasks q).inProgress.length
        + (getTasks allTasks q).done.length ≤ (getTasks allTasks q).total ∧
    (truthy q = true →
      ∀ t, t ∈ (getTasks allTasks q).tasks → t.boardId = q.getD "") := by
  refine ⟨rfl, rfl, rfl, ?_, ?_, ?_, ?_, ?_⟩
  · intro t
    simp [getTasks, List.mem_filter]
  · intro t
    simp [getTasks, List.mem_filter]
  · intro t
    simp [getTasks, List.mem_filter]
  · simp only [getTasks]
    exact sum_status_filters_le _
  · intro hq t htm
    simp [getTasks, hq] at htm
    exact htm.2

/-- C3 witness: with the filter `boardId = "b1"` on a singleton scan, the one
task of the flat list has board `"b1"`. -/
theorem get_tasks_grouping_witness :
    sampleTask.boardId = (some "b1" : Option String).getD "" :=
  (get_tasks_grouping [sampleTask] (some "b1")).2.2.2.2.2.2.2 (by decide)
    sampleTask (by decide)

/-- C5: `GET /dashboard` reports `completionRate = round(100 * done / total)`
(0 when the task table is empty) and `recentTasks` is the five-element prefix
of the scan stably sorted descending by `updatedAt` — at most five tasks, in
weakly decreasing `updatedAt` order, all drawn from the scan. -/
theorem dashboard_stats (tasks : List Task) :
    (getDashboard tasks).total = tasks.length ∧
    (getDashboard tasks).done = (tasks.filter (fun t => t.status == "done")).length ∧
    (getDashboard tasks).completionRate
        = (if tasks.length = 0 then 0
           else jsRound (100 * ((getDashboard tasks).done : ℚ) / (tasks.length : ℚ))) ∧
    (tasks = [] → (getDashboard tasks).completionRate = 0) ∧
    (getDashboard tasks).recentTasks = (tasks.mergeSort byUpdatedAtDesc).take 5 ∧
    (getDashboard tasks).recentTasks.length = min 5 tasks.length ∧
    List.Pairwise (fun a b : Task => b.updatedAt ≤ a.updatedAt)
      (getDashboard tasks).recentTasks ∧
    (∀ t, t ∈ (getDashboard tasks).recentTasks → t ∈ tasks) := by
  have htrans : ∀ a b c : Task,
      byUpdatedAtDesc a b → byUpdatedAtDesc b c → byUpdatedAtDesc a c := by
    intro a b c hab hbc
    simp only [byUpdatedAtDesc, decide_eq_true_eq] at *
    omega
  have htotal : ∀ a b : Task, byUpdatedAtDesc a b || byUpdatedAtDesc b a := by
    intro a b
    simp only [byUpdatedAtDesc, Bool.or_eq_true, decide_eq_true_eq]
    omega
  have hs : (tasks.mergeSort byUpdatedAtDesc).Pairwise
      (fun a b => byUpdatedAtDesc a b = true) :=
    List.sorted_mergeSort htrans htotal tasks
  refine ⟨rfl, rfl, ?_, ?_, rfl, ?_, ?_, ?_⟩
  · by_cases h : tasks.length = 0
    · simp [getDashboard, h]
    · have hpos : 0 < tasks.length := Nat.pos_of_ne_zero h
      simp only [getDashboard, hpos, if_pos, h, if_neg]
      congr 1
      ring
  · intro h
    subst h
    rfl
  · simp only [getDashboard]
    rw [List.length_take, List.length_mergeSort]
  · have hp : ((tasks.mergeSort byUpdatedAtDesc).take 5).Pairwise
        (fun a b => byUpdatedAtDesc a b = true) :=
      List.Pairwise.sublist (List.take_sublist 5 _) hs
    have := hp.imp (fun hab => by
      simpa only [byUpdatedAtDesc, decide_eq_true_eq] using hab)
    simpa only [getDashboard] using this
  · intro t ht
    simp only [getDashboard] at ht
    exact List.mem_mergeSort.mp (List.mem_of_mem_take ht)

/-- C5 witness: on the empty table the completion rate is 0. -/
theorem dashboard_stats_witness : (getDashboard []).completionRate = 0 :=
  (dashboard_stats []).2.2.2.1 rfl

/-- C8: across every route of the server — the seven handlers on their
success, validation and not-found paths, the health check, the unmatched-route
handler, the global error handler, and every catch block — the response body
carries `success = true` exactly on status 200 or 201, and every failure body
carries an `error` string. -/
theorem response_envelope (boards : BoardStore) (store : TaskStore)
    (cbody : CreateBody) (ubody : UpdateBody) (newId id : String) (now : Nat)
    (allTasks : List Task) (q : Option String) (allBoards : List String) :
    envelopeOK (getTasks allTasks q).resp ∧
    envelopeOK (getTaskById store id).resp ∧
    envelopeOK (postTasks boards store cbody newId now).resp ∧
    envelopeOK (putTasksId store id ubody now).resp ∧
    envelopeOK (deleteTasksId store id).resp ∧
    envelopeOK (getDashboard allTasks).resp ∧
    envelopeOK (getBoards allBoards).resp ∧
    envelopeOK healthResp ∧
    envelopeOK notFoundResp ∧
    envelopeOK globalErrorResp ∧
    envelopeOK getTasksErrorResp ∧
    envelopeOK getTaskErrorResp ∧
    envelopeOK postTasksErrorResp ∧
    envelopeOK putTasksErrorResp ∧
    envelopeOK deleteTasksErrorResp ∧
    envelopeOK dashboardErrorResp ∧
    envelopeOK boardsErrorResp := by
  refine ⟨?_, ?_, ?_, ?_, ?_, ?_, ?_, by simp [envelopeOK, healthResp],
    by simp [envelopeOK, notFoundResp], by simp [envelopeOK, globalErrorResp],
    by simp [envelopeOK, getTasksErrorResp], by simp [envelopeOK, getTaskErrorResp],
    by simp [envelopeOK, postTasksErrorResp], by simp [envelopeOK, putTasksErrorResp],
    by simp [envelopeOK, deleteTasksErrorResp], by simp [envelopeOK, dashboardErrorResp],
    by simp [envelopeOK, boardsErrorResp]⟩
  · simp [getTasks, envelopeOK]
  · cases h : store id <;> simp [getTaskById, h, envelopeOK]
  · simp only [postTasks]
    split_ifs <;> simp [envelopeOK]
  · cases h : store id
    · simp [putTasksId, h, envelopeOK]
    · simp only [putTasksId, h]
      split_ifs <;> simp [envelopeOK]
  · cases h : store id <;> simp [deleteTasksId, h, envelopeOK]
  · simp [getDashboard, envelopeOK]
  · simp [getBoards, envelopeOK]

/-- C8 witness: the unmatched-route handler's envelope is well-formed. -/
theorem response_envelope_witness : envelopeOK notFoundResp :=
  (response_envelope (fun _ => false) (fun _ => none) ⟨none, none, none, none⟩
    ⟨none, none, none⟩ "a" "b" 0 [] none []).2.2.2.2.2.2.2.2.1

end TaskBoard
